import Mathlib

/-!
Verification of the paybot-sdk TypeScript repository against its
natural-language specification.

The development shallowly embeds the payment-relevant parts of the source:
`PayBotClient.usdToBaseUnits`, `PayBotClient.buildPaymentPayload`,
`PayBotClient.pay` (src/client.ts of the x402 SDK), and
`createX402Handler` / `parse402Response` (src/x402-handler.ts).

Modelling conventions:
- Strings are processed as `List Char`; JavaScript `split`, `padEnd`,
  `slice` and `replace(/^0+/, '')` are embedded as the corresponding
  list operations.
- Network transports are oracles: the outcome of each `fetch` call is an
  input of the embedded function, and the embedded function also returns
  the trace of requests it issued.
- JavaScript exceptions are `Except`; the fact that `pay` catches every
  exception is reflected in its total return type.
- JSON numbers are modelled exactly (integers / rationals); facilitator
  response bodies are modelled with the documented field shapes.
-/

namespace PayBot

/-! ## Decimal strings and digits -/

/-- The ten decimal digit characters. -/
def digitChars : List Char := ['0', '1', '2', '3', '4', '5', '6', '7', '8', '9']

/-- Numeric value of a digit character (48 = code of the zero digit). -/
def digitVal (c : Char) : Nat := c.toNat - 48

/-- Character for a digit value below ten. -/
def digitChar : Nat → Char
  | 0 => '0' | 1 => '1' | 2 => '2' | 3 => '3' | 4 => '4'
  | 5 => '5' | 6 => '6' | 7 => '7' | 8 => '8' | 9 => '9'
  | _ => '*'

/-- Numeric value of a list of digit characters read as a decimal numeral. -/
def valD (l : List Char) : Nat := l.foldl (fun a c => 10 * a + digitVal c) 0

/-- Fuel-driven digit expansion (structural recursion, so that concrete
instances reduce inside the kernel). -/
def natReprAux (fuel : Nat) (n : Nat) : List Char :=
  match fuel with
  | 0 => []
  | f + 1 =>
    if n < 10 then [digitChar n]
    else natReprAux f (n / 10) ++ [digitChar (n % 10)]

/-- Canonical decimal numeral (most significant digit first, no leading
zeros) of a natural number. -/
def natRepr (n : Nat) : List Char := natReprAux (n + 1) n

/-- JavaScript `s.split('.')` on a list of characters: always returns a
non-empty list of chunks, `[[]]` on the empty input. -/
def splitDot : List Char → List (List Char)
  | [] => [[]]
  | c :: rest =>
    if c = '.' then [] :: splitDot rest
    else
      match splitDot rest with
      | [] => [[c]]
      | h :: t => (c :: h) :: t

/-! ## `PayBotClient.usdToBaseUnits` (src/client.ts)

```ts
private usdToBaseUnits(usdAmount: string): string {
  const parts = usdAmount.split('.');
  const whole = parts[0] ?? '0';
  const fraction = (parts[1] ?? '').padEnd(6, '0').slice(0, 6);
  return `${whole}${fraction}`.replace(/^0+/, '') || '0';
}
```
-/

/-- List-level embedding of `usdToBaseUnits`. -/
def usdToBaseUnitsL (usdAmount : List Char) : List Char :=
  let parts := splitDot usdAmount
  let whole := parts.headD ['0']
  let fraction := ((parts.getD 1 []) ++
    List.replicate (6 - (parts.getD 1 []).length) '0').take 6
  let stripped := (whole ++ fraction).dropWhile (· == '0')
  if stripped = [] then ['0'] else stripped

/-- String-level `usdToBaseUnits`. -/
def usdToBaseUnits (usdAmount : String) : String :=
  String.mk (usdToBaseUnitsL usdAmount.data)

/-! ## JSON values

A model of parsed JSON values as JavaScript sees them.  Numbers are
modelled as integers (the payment bodies only carry integer base-unit
amounts); arrays are omitted because no code path of the repository reads
one.  Object field order is assumed duplicate-free, as `JSON.parse`
output effectively is. -/

inductive JVal where
  | jnull
  | jbool (b : Bool)
  | jnum (n : Int)
  | jstr (s : String)
  | jobj (fields : List (String × JVal))

/-- JavaScript property access `v[k]`: `none` models `undefined`
(missing key or non-object receiver other than `null`). -/
def getField : JVal → String → Option JVal
  | .jobj fields, k => (fields.find? (fun p => p.1 == k)).map (fun p => p.2)
  | _, _ => none

/-- JavaScript truthiness of a JSON value. -/
def truthy : JVal → Bool
  | .jnull => false
  | .jbool b => b
  | .jnum n => decide (n ≠ 0)
  | .jstr s => decide (s ≠ "")
  | .jobj _ => true

/-- Truthiness of a possibly-undefined value (`undefined` is falsy). -/
def truthyOpt : Option JVal → Bool
  | some v => truthy v
  | none => false

/-- JavaScript `String(v)` on a JSON value. -/
def jsToString : JVal → String
  | .jnull => "null"
  | .jbool true => "true"
  | .jbool false => "false"
  | .jnum n => toString n
  | .jstr s => s
  | .jobj _ => "[object Object]"

/-- JavaScript nullish coalescing `v ?? d` on a possibly-undefined
value: the default is taken for `undefined` and for `null`. -/
def jsCoalesce (o : Option JVal) (d : JVal) : JVal :=
  match o with
  | some .jnull => d
  | some v => v
  | none => d

/-! ## JavaScript numbers

JavaScript numeric strings and formatting, modelled with exact rationals.
`jsNumber` models `Number(s)` on plain decimal literals (the payment
amounts exchanged by this SDK); `none` models `NaN`.  `jsToFixed` models
`x.toFixed(d)` with round-half-up. -/

/-- `Number(s)` for an unsigned decimal literal chunked at the radix
point. -/
def parseUnsignedDec (l : List Char) : Option Rat :=
  match splitDot l with
  | [w] =>
    if w ≠ [] ∧ (∀ c ∈ w, c ∈ digitChars) then some ((valD w : Rat)) else none
  | [w, f] =>
    if (w ≠ [] ∨ f ≠ []) ∧ (∀ c ∈ w, c ∈ digitChars) ∧
        (∀ c ∈ f, c ∈ digitChars)
    then some ((valD w : Rat) + (valD f : Rat) / (10 : Rat) ^ f.length)
    else none
  | _ => none

/-- JavaScript `Number(s)` on decimal literals (`""` is `0`, a leading
minus sign is allowed, anything else non-decimal is `NaN = none`). -/
def jsNumber (s : String) : Option Rat :=
  match s.data with
  | [] => some 0
  | '-' :: rest => (parseUnsignedDec rest).map (fun q => -q)
  | l => parseUnsignedDec l

/-- Left-pad a numeral with zeros to a given width. -/
def padLeftZeros (d : Nat) (l : List Char) : List Char :=
  List.replicate (d - l.length) '0' ++ l

/-- `q.toFixed(d)` for non-negative `q`. -/
def toFixedPos (d : Nat) (q : Rat) : String :=
  let n := (q * (10 : Rat) ^ d + 1 / 2).floor.toNat
  String.mk (natRepr (n / 10 ^ d)) ++ "." ++
    String.mk (padLeftZeros d (natRepr (n % 10 ^ d)))

/-- JavaScript `q.toFixed(d)`. -/
def jsToFixed (d : Nat) (q : Rat) : String :=
  if q < 0 then "-" ++ toFixedPos d (-q) else toFixedPos d q

/-- `toFixed` on a possibly-NaN number. -/
def jsToFixedOpt (d : Nat) (q : Option Rat) : String :=
  match q with
  | none => "NaN"
  | some v => jsToFixed d v

/-- JavaScript `a > b` on possibly-NaN numbers: any comparison with NaN
is false. -/
def jsGtOpt : Option Rat → Option Rat → Bool
  | some a, some b => decide (b < a)
  | _, _ => false

/-! ## Network registry (src/networks.ts)

`EIP712_DOMAINS`: signing domains keyed by CAIP-2 chain identifier. -/

structure EIP712Domain where
  name : String
  version : String
  chainId : Nat
  verifyingContract : String
deriving DecidableEq

/-- The two registered signing domains. -/
def EIP712_DOMAINS : String → Option EIP712Domain := fun network =>
  if network = "eip155:84532" then
    some ⟨"USDC", "2", 84532, "0x036CbD53842c5426634e7929541eC2318f3dCF7e"⟩
  else if network = "eip155:8453" then
    some ⟨"USDC", "2", 8453, "0x833589fCD6eDb6E08f4c7C32D4f71b54bdA02913"⟩
  else none

/-! ## Client data model (src/types.ts, src/client.ts) -/

structure PayBotConfig where
  apiKey : String
  facilitatorUrl : String
  botId : String
  operatorId : String
  walletPrivateKey : Option String
deriving DecidableEq

structure PaymentRequest where
  resource : String
  amount : String
  payTo : String
  tokenContract : Option String
  network : Option String
deriving DecidableEq

/-- The EIP-3009 `TransferWithAuthorization` message that gets signed
(`from` is a Lean keyword, hence `fromAddr`). -/
structure AuthMessage where
  fromAddr : String
  toAddr : String
  value : Nat
  validAfter : Nat
  validBefore : Nat
  nonce : String
deriving DecidableEq

structure SignedAuth where
  msg : AuthMessage
  signature : String
deriving DecidableEq

/-- The payment payload string built by `buildPaymentPayload`: a mock
trust token, or the JSON serialization of a signed authorization
(`JSON.stringify` is injective on this shape, so the serialized string
is modelled by the structured value). -/
inductive PaymentPayload where
  | mock (token : String)
  | signed (auth : SignedAuth)
deriving DecidableEq

/-- Oracle for the effectful inputs of `buildPaymentPayload`: current
time, the freshly generated random nonce, the wallet address derived
from the private key, and the typed-data signing primitive. -/
structure SignEnv where
  nowSeconds : Nat
  nonce : String
  address : String
  sign : EIP712Domain → AuthMessage → String

/-- JavaScript falsiness of an optional string, as tested by `!x` on a
`string | undefined` value: falsy for `undefined` and for the empty
string. -/
def strFalsy : Option String → Bool
  | none => true
  | some s => s == ""

/-!
`PayBotClient.buildPaymentPayload` (src/client.ts):

```ts
if (!this.config.walletPrivateKey) { return `payer:${this.config.botId}`; }
const domain = EIP712_DOMAINS[network];
if (!domain) { throw new Error(`No EIP-712 domain for network: ${network}`); }
...
const validAfter = 0n;
const validBefore = nowSeconds + 3600n; // 1 hour from now
```

The wallet-key guard is a JS falsy test, so an empty-string key also
takes the mock path (`strFalsy`).
-/

/-- Embedding of `buildPaymentPayload`; the thrown error is the
`Except.error` case. -/
def buildPaymentPayload (cfg : PayBotConfig) (env : SignEnv)
    (payTo : String) (amountBaseUnits : String) (network : String) :
    Except String PaymentPayload :=
  if strFalsy cfg.walletPrivateKey then .ok (.mock ("payer:" ++ cfg.botId))
  else
    match EIP712_DOMAINS network with
    | none => .error ("No EIP-712 domain for network: " ++ network)
    | some domain =>
      let validAfter := 0
      let validBefore := env.nowSeconds + 3600
      let value := valD amountBaseUnits.data
      let msg : AuthMessage :=
        ⟨env.address, payTo, value, validAfter, validBefore, env.nonce⟩
      .ok (.signed ⟨msg, env.sign domain msg⟩)

/-! ## Facilitator wire model (src/client.ts `pay`) -/

/-- Commission breakdown carried by a verify response. -/
structure Commission where
  grossAmount : Option String
  netAmount : Option String
  commissionAmount : Option String
  commissionRate : Option Rat
deriving DecidableEq

structure Requirements where
  scheme : String
  network : String
  asset : String
  amount : String
  payTo : String
  maxTimeoutSeconds : Nat
deriving DecidableEq

/-- Decoded JSON body of a facilitator `/verify` response, with the
documented optional fields. -/
structure VerifyBody where
  error : Option String
  code : Option String
  details : Option JVal
  settlementToken : Option String
  modifiedRequirements : Option Requirements
  commission : Option Commission

/-- Decoded JSON body of a facilitator `/settle` response. -/
structure SettleBody where
  error : Option String
  code : Option String
  details : Option JVal
  transaction : Option String
  network : Option String

/-- Outcome of one `fetch`: the promise rejecting (network error), or a
response with a status and the result of `response.json()`
(`Except.error` = the body is not decodable JSON). -/
inductive FetchResult (β : Type) where
  | netErr (msg : String)
  | resp (status : Nat) (body : Except String β)

/-- Oracle for the facilitator transport: what each of the two fetches
of `pay` would produce if issued. -/
structure Transport where
  verify : FetchResult VerifyBody
  settle : FetchResult SettleBody

/-- `response.ok`: status in the 2xx range. -/
def respOk (status : Nat) : Bool := 200 ≤ status && status < 300

/-- `response.json().catch(() => ({}))` on an error path: an undecodable
body yields the empty object, i.e. all fields absent. -/
def verifyErrBody : Except String VerifyBody → VerifyBody
  | .ok b => b
  | .error _ => ⟨none, none, none, none, none, none⟩

def settleErrBody : Except String SettleBody → SettleBody
  | .ok b => b
  | .error _ => ⟨none, none, none, none, none⟩

/-- The result shape of `pay` (src/types.ts `PaymentResult`).  All four
amount fields are non-optional in the source type, which the structure
reproduces. -/
structure PaymentResult where
  success : Bool
  txHash : Option String
  grossAmount : String
  netAmount : String
  commissionAmount : String
  commissionRate : Rat
  network : Option String
  error : Option String
  errorCode : Option String
  errorDetails : Option JVal

/-- A `success:false` result with zeroed amount fields, as every failure
branch of `pay` builds it. -/
def zeroFailure (err : Option String) (code : Option String)
    (details : Option JVal) : PaymentResult :=
  { success := false, txHash := none, grossAmount := "0", netAmount := "0",
    commissionAmount := "0", commissionRate := 0, network := none,
    error := err, errorCode := code, errorDetails := details }

structure PayloadWrapper where
  x402Version : Nat
  resource : String
  accepted : Bool
  payload : PaymentPayload
deriving DecidableEq

structure VerifyEnvelope where
  botId : String
  payload : PayloadWrapper
  requirements : Requirements
deriving DecidableEq

structure SettleEnvelope where
  botId : String
  settlementToken : String
  payload : PayloadWrapper
  requirements : Requirements
  commission : Option Commission
deriving DecidableEq

/-- One facilitator request issued by `pay`, with its envelope. -/
inductive FacRequest where
  | verifyReq (e : VerifyEnvelope)
  | settleReq (e : SettleEnvelope)
deriving DecidableEq

def FacRequest.isSettle : FacRequest → Bool
  | .settleReq _ => true
  | _ => false

def defaultNetwork : String := "eip155:84532"

def defaultTokenContract : String := "0x036CbD53842c5426634e7929541eC2318f3dCF7e"

/-- The requirements block `pay` sends on both phases. -/
def mkRequirements (network tokenContract amountBaseUnits payTo : String) :
    Requirements :=
  { scheme := "exact", network := network,
    asset := network ++ "/erc20:" ++ tokenContract,
    amount := amountBaseUnits, payTo := payTo, maxTimeoutSeconds := 300 }

/-- Embedding of `PayBotClient.pay` (src/client.ts).  The whole body of
the source method is wrapped in `try { ... } catch` returning a zeroed
failure, so the embedding is a total function; it also returns the trace
of facilitator requests issued.  The `if (!settlementToken)` guard is a
JS falsy test, so an empty-string settlement token also counts as
missing (`strFalsy`). -/
def pay (cfg : PayBotConfig) (req : PaymentRequest) (env : SignEnv)
    (t : Transport) : PaymentResult × List FacRequest :=
  let network := req.network.getD defaultNetwork
  let tokenContract := req.tokenContract.getD defaultTokenContract
  let amountBaseUnits := usdToBaseUnits req.amount
  match buildPaymentPayload cfg env req.payTo amountBaseUnits network with
  | .error m => (zeroFailure (some m) none none, [])
  | .ok payload =>
    let wrapper : PayloadWrapper := ⟨1, req.resource, true, payload⟩
    let reqs := mkRequirements network tokenContract amountBaseUnits req.payTo
    let venv : VerifyEnvelope := ⟨cfg.botId, wrapper, reqs⟩
    match t.verify with
    | .netErr m => (zeroFailure (some m) none none, [.verifyReq venv])
    | .resp st body =>
      if respOk st then
        match body with
        | .error m => (zeroFailure (some m) none none, [.verifyReq venv])
        | .ok vb =>
          if strFalsy vb.settlementToken then
            (zeroFailure (some "Verify response missing settlement token")
              none none, [.verifyReq venv])
          else
            let tok := vb.settlementToken.getD ""
            let senv : SettleEnvelope :=
              ⟨cfg.botId, tok, wrapper, vb.modifiedRequirements.getD reqs,
                vb.commission⟩
            match t.settle with
            | .netErr m =>
              (zeroFailure (some m) none none,
                [.verifyReq venv, .settleReq senv])
            | .resp st2 body2 =>
              if respOk st2 then
                match body2 with
                | .error m =>
                  (zeroFailure (some m) none none,
                    [.verifyReq venv, .settleReq senv])
                | .ok sb =>
                  ({ success := true, txHash := sb.transaction,
                     grossAmount :=
                       (vb.commission.bind (fun c => c.grossAmount)).getD "0",
                     netAmount :=
                       (vb.commission.bind (fun c => c.netAmount)).getD "0",
                     commissionAmount :=
                       (vb.commission.bind
                         (fun c => c.commissionAmount)).getD "0",
                     commissionRate :=
                       (vb.commission.bind
                         (fun c => c.commissionRate)).getD 0,
                     network := sb.network, error := none, errorCode := none,
                     errorDetails := none },
                    [.verifyReq venv, .settleReq senv])
              else
                let eb := settleErrBody body2
                (zeroFailure
                  (some (eb.error.getD ("Settlement HTTP " ++ toString st2)))
                  eb.code eb.details, [.verifyReq venv, .settleReq senv])
      else
        let eb := verifyErrBody body
        (zeroFailure (some (eb.error.getD ("HTTP " ++ toString st)))
          eb.code eb.details, [.verifyReq venv])

/-! ## x402 interceptor (src/x402-handler.ts) -/

/-- The configuration fields that `createX402Handler` itself reads. -/
structure X402HandlerConfig where
  maxAutoPay : Option String
  network : Option String
deriving DecidableEq

/-- An HTTP response as the interceptor sees it: status, the outcome of
`response.json()`, and the response headers. -/
structure HResp where
  status : Nat
  body : Except String JVal
  headers : List (String × String)

/-- `headers.get(k)`: `none` models `null`. -/
def hGet (hs : List (String × String)) (k : String) : Option String :=
  (hs.find? (fun p => p.1 == k)).map (fun p => p.2)

/-- `Headers.set(k, v)`: replace any existing entry for the key. -/
def setHeader (hs : List (String × String)) (k v : String) :
    List (String × String) :=
  hs.filter (fun p => p.1 != k) ++ [(k, v)]

/-- The caller-supplied `RequestInit` fields the interceptor touches:
`headers` is consulted and replaced on the retry, the other members are
spread through unchanged. -/
structure ReqInit where
  headers : List (String × String)
  method : Option String
  body : Option String
deriving DecidableEq

/-- Observable actions of the interceptor: a `client.pay` invocation
and a retried request. -/
inductive HEvent where
  | payCall (req : PaymentRequest)
  | retry (url : String) (init : ReqInit)
deriving DecidableEq

/-- Oracle for the interceptor's effectful collaborators: the first
response, what `client.pay` would return, and the response to the
retried request. -/
structure HandlerEnv where
  firstResponse : HResp
  payResult : PaymentResult
  retryResponse : HResp

/-!
`parse402Response` (src/x402-handler.ts):

```ts
try {
  const body = await response.json() as Record<string, unknown>;
  if (body.paymentRequirements) { ... }
  if (body.amount && body.payTo) { ... }
  const headerAmount = response.headers.get('X-Payment-Amount');
  const headerPayTo = response.headers.get('X-Payment-Address');
  if (headerAmount && headerPayTo) { ... }
  return null;
} catch { return null; }
```

An undecodable body rejects inside the `try`, so the `catch` returns
`null` without ever reading the headers; likewise a `null` body throws
on the first property access.
-/

def parse402Response (body : Except String JVal)
    (headers : List (String × String)) : Option (String × String) :=
  match body with
  | .error _ => none
  | .ok .jnull => none
  | .ok bv =>
    if truthyOpt (getField bv "paymentRequirements") then
      let req := (getField bv "paymentRequirements").getD .jnull
      some (jsToString (jsCoalesce (getField req "amount") (.jstr "0")),
            jsToString (jsCoalesce (getField req "payTo") (.jstr "")))
    else if truthyOpt (getField bv "amount") &&
        truthyOpt (getField bv "payTo") then
      some (jsToString ((getField bv "amount").getD .jnull),
            jsToString ((getField bv "payTo").getD .jnull))
    else
      match hGet headers "X-Payment-Amount", hGet headers "X-Payment-Address"
        with
      | some ha, some hp =>
        if ha ≠ "" ∧ hp ≠ "" then some (ha, hp) else none
      | _, _ => none

/-- The over-ceiling error message thrown by the interceptor. -/
def x402LimitMsg (amountUsd : Option Rat) (maxAutoPay : String) : String :=
  "x402: Payment of $" ++ jsToFixedOpt 2 amountUsd ++
    " exceeds auto-pay limit of $" ++ maxAutoPay

/-- Embedding of the `fetch` closure returned by `createX402Handler`
(src/x402-handler.ts).  `Except.error` is a thrown error; the event list
records the `client.pay` invocations and retried requests. -/
def handlerFetch (cfg : X402HandlerConfig) (env : HandlerEnv) (url : String)
    (init : Option ReqInit) : Except String HResp × List HEvent :=
  let response := env.firstResponse
  if response.status ≠ 402 then (.ok response, [])
  else
    match parse402Response response.body response.headers with
    | none => (.ok response, [])
    | some (amt, payTo) =>
      let maxAutoPay := cfg.maxAutoPay.getD "1.00"
      let amountUsd := (jsNumber amt).map (fun q => q / 1000000)
      if jsGtOpt amountUsd (jsNumber maxAutoPay) then
        (.error (x402LimitMsg amountUsd maxAutoPay), [])
      else
        let payReq : PaymentRequest :=
          { resource := url, amount := jsToFixedOpt 6 amountUsd,
            payTo := payTo, tokenContract := none, network := cfg.network }
        let result := env.payResult
        if result.success then
          let baseHeaders := (init.map (fun i => i.headers)).getD []
          let retryHeaders :=
            setHeader (setHeader baseHeaders "X-Payment-Proof"
              (result.txHash.getD "")) "X-Payment-Facilitator" "paybot"
          let rInit : ReqInit :=
            ⟨retryHeaders, init.bind (fun i => i.method),
              init.bind (fun i => i.body)⟩
          (.ok env.retryResponse, [.payCall payReq, .retry url rInit])
        else
          (.error ("x402: Payment failed: " ++ (result.error.getD "undefined")),
            [.payCall payReq])

/-! ### Arithmetic lemmas about decimal numerals -/

theorem natReprAux_fuel (n : Nat) : ∀ fuel fuel2 : Nat, n < fuel →
    n < fuel2 → natReprAux fuel n = natReprAux fuel2 n := by
  induction n using Nat.strong_induction_on with
  | _ n ih =>
    intro fuel fuel2 h1 h2
    match fuel, fuel2 with
    | f + 1, g + 1 =>
      show (if n < 10 then _ else _) = (if n < 10 then _ else _)
      by_cases hn : n < 10
      · rw [if_pos hn, if_pos hn]
      · rw [if_neg hn, if_neg hn]
        have hdiv : n / 10 < n := Nat.div_lt_self (by omega) (by omega)
        rw [ih (n / 10) hdiv f (n / 10 + 1) (by omega) (by omega),
          ih (n / 10) hdiv g (n / 10 + 1) (by omega) (by omega)]

theorem natRepr_unfold (n : Nat) :
    natRepr n = if n < 10 then [digitChar n]
      else natRepr (n / 10) ++ [digitChar (n % 10)] := by
  show natReprAux (n + 1) n = _
  by_cases hn : n < 10
  · rw [natReprAux, if_pos hn, if_pos hn]
  · rw [natReprAux, if_neg hn, if_neg hn]
    have hdiv : n / 10 < n := Nat.div_lt_self (by omega) (by omega)
    rw [natReprAux_fuel (n / 10) n (n / 10 + 1) (by omega) (by omega)]
    rfl

theorem valD_foldl_init (l : List Char) (n : Nat) :
    l.foldl (fun a c => 10 * a + digitVal c) n =
      n * 10 ^ l.length + valD l := by
  induction l generalizing n with
  | nil => simp [valD]
  | cons c t ih =>
    show t.foldl _ (10 * n + digitVal c) = _
    rw [ih (10 * n + digitVal c)]
    have h0 : valD (c :: t) = digitVal c * 10 ^ t.length + valD t := by
      show t.foldl _ (10 * 0 + digitVal c) = _
      rw [ih (10 * 0 + digitVal c)]
      ring
    rw [h0]
    simp [List.length_cons]
    ring

theorem valD_append (a b : List Char) :
    valD (a ++ b) = valD a * 10 ^ b.length + valD b := by
  show (a ++ b).foldl _ 0 = _
  rw [List.foldl_append]
  exact valD_foldl_init b (valD a)

theorem valD_cons (c : Char) (t : List Char) :
    valD (c :: t) = digitVal c * 10 ^ t.length + valD t := by
  have := valD_append [c] t
  simpa [valD, digitVal] using this

theorem digitChar_digitVal (c : Char) (hc : c ∈ digitChars) :
    digitChar (digitVal c) = c := by
  fin_cases hc <;> rfl

theorem digitVal_lt_ten (c : Char) (hc : c ∈ digitChars) :
    digitVal c < 10 := by
  fin_cases hc <;> decide

theorem digitVal_pos (c : Char) (hc : c ∈ digitChars) (h0 : c ≠ '0') :
    0 < digitVal c := by
  fin_cases hc <;> simp_all <;> decide

theorem valD_pos (c : Char) (t : List Char) (hc : c ∈ digitChars)
    (h0 : c ≠ '0') : 0 < valD (c :: t) := by
  rw [valD_cons]
  have h1 := digitVal_pos c hc h0
  have h2 : 0 < 10 ^ t.length := Nat.pos_pow_of_pos _ (by omega)
  exact Nat.lt_of_lt_of_le (Nat.mul_pos h1 h2) (Nat.le_add_right _ _)

theorem natRepr_valD (d : List Char) (hne : d ≠ [])
    (hd : ∀ c ∈ d, c ∈ digitChars)
    (h0 : ∀ c t, d = c :: t → c ≠ '0') :
    natRepr (valD d) = d := by
  induction d using List.reverseRecOn with
  | nil => exact absurd rfl hne
  | append_singleton l a ih =>
    rcases l with _ | ⟨c, t⟩
    · have ha : a ∈ digitChars := hd a (by simp)
      have hlt := digitVal_lt_ten a ha
      have hva : valD [a] = digitVal a := by simp [valD, digitVal]
      simp only [List.nil_append]
      rw [hva, natRepr_unfold, if_pos hlt, digitChar_digitVal a ha]
    · have hc : c ∈ digitChars := hd c (by simp)
      have hc0 : c ≠ '0' := h0 c (t ++ [a]) (by simp)
      have ha : a ∈ digitChars := hd a (by simp)
      have hva := digitVal_lt_ten a ha
      have hpos : 0 < valD (c :: t) := valD_pos c t hc hc0
      have hval : valD ((c :: t) ++ [a]) = 10 * valD (c :: t) + digitVal a := by
        rw [valD_append]
        simp [valD, digitVal]
        ring
      have hge : ¬ valD ((c :: t) ++ [a]) < 10 := by omega
      rw [natRepr_unfold, if_neg hge]
      have hdiv : valD ((c :: t) ++ [a]) / 10 = valD (c :: t) := by omega
      have hmod : valD ((c :: t) ++ [a]) % 10 = digitVal a := by omega
      rw [hdiv, hmod, digitChar_digitVal a ha]
      rw [ih (by simp) (fun x hx => hd x (List.mem_append_left _ hx))
        (fun x s hxs => h0 x (s ++ [a]) (by simp [hxs]))]

theorem strip_eq_natRepr (d : List Char) (hd : ∀ c ∈ d, c ∈ digitChars) :
    (if d.dropWhile (· == '0') = [] then ['0'] else d.dropWhile (· == '0'))
      = natRepr (valD d) := by
  induction d with
  | nil => rfl
  | cons c t ih =>
    by_cases hc : c = '0'
    · subst hc
      have hv : valD ('0' :: t) = valD t := by
        rw [valD_cons]; simp [digitVal]
      rw [hv, List.dropWhile_cons]
      simp only [show (('0' : Char) == '0') = true from rfl, if_true]
      exact ih (fun x hx => hd x (by simp [hx]))
    · have hcc : (c == '0') = false := by
        simp [hc]
      rw [List.dropWhile_cons, hcc]
      simp only [Bool.false_eq_true, if_false, reduceCtorEq]
      rw [natRepr_valD (c :: t) (by simp) hd
        (fun x s hxs => by
          injection hxs with h1 h2
          subst h1; exact hc)]

theorem valD_replicate_zero (k : Nat) : valD (List.replicate k '0') = 0 := by
  induction k with
  | zero => rfl
  | succ n ih =>
    rw [List.replicate_succ, valD_cons, ih]
    simp [digitVal]

/-! ### splitDot lemmas -/

theorem splitDot_no_dot (l : List Char) (h : '.' ∉ l) : splitDot l = [l] := by
  induction l with
  | nil => rfl
  | cons c t ih =>
    have hc : c ≠ '.' := fun hcc => h (by simp [hcc])
    have ht : '.' ∉ t := fun htt => h (by simp [htt])
    rw [splitDot, if_neg hc, ih ht]

theorem splitDot_mid (w f : List Char) (hw : '.' ∉ w) :
    splitDot (w ++ '.' :: f) = w :: splitDot f := by
  induction w with
  | nil => simp [splitDot]
  | cons c t ih =>
    have hc : c ≠ '.' := fun hcc => hw (by simp [hcc])
    have ht : '.' ∉ t := fun htt => hw (by simp [htt])
    rw [List.cons_append, splitDot, if_neg hc, ih ht]

theorem digit_ne_dot (c : Char) (hc : c ∈ digitChars) : c ≠ '.' := by
  fin_cases hc <;> decide

theorem usdToBaseUnitsL_split (w f : List Char) (hw : '.' ∉ w) (hf : '.' ∉ f) :
    usdToBaseUnitsL (w ++ '.' :: f) =
      (if (w ++ (f ++ List.replicate (6 - f.length) '0').take 6).dropWhile
          (· == '0') = []
       then ['0']
       else (w ++ (f ++ List.replicate (6 - f.length) '0').take 6).dropWhile
          (· == '0')) := by
  unfold usdToBaseUnitsL
  rw [splitDot_mid w f hw, splitDot_no_dot f hf]
  rfl

theorem usdToBaseUnits_dotted (w f : List Char)
    (hw : ∀ c ∈ w, c ∈ digitChars) (hf : ∀ c ∈ f, c ∈ digitChars)
    (hlen : f.length ≤ 6) :
    usdToBaseUnitsL (w ++ '.' :: f) =
      natRepr (valD w * 10 ^ 6 + valD f * 10 ^ (6 - f.length)) := by
  have hwd : '.' ∉ w := fun h => digit_ne_dot '.' (hw _ h) rfl
  have hfd : '.' ∉ f := fun h => digit_ne_dot '.' (hf _ h) rfl
  rw [usdToBaseUnitsL_split w f hwd hfd]
  have hlg : (f ++ List.replicate (6 - f.length) '0').length = 6 := by
    rw [List.length_append, List.length_replicate]
    omega
  have hfull : (f ++ List.replicate (6 - f.length) '0').take 6 =
      f ++ List.replicate (6 - f.length) '0' :=
    List.take_of_length_le (le_of_eq hlg)
  rw [hfull]
  have hdig : ∀ c ∈ w ++ (f ++ List.replicate (6 - f.length) '0'),
      c ∈ digitChars := by
    intro c hc
    rcases List.mem_append.mp hc with h | h
    · exact hw c h
    · rcases List.mem_append.mp h with h2 | h2
      · exact hf c h2
      · rw [List.eq_of_mem_replicate h2]
        simp [digitChars]
  rw [strip_eq_natRepr _ hdig]
  congr 1
  rw [valD_append, valD_append, valD_replicate_zero, List.length_append,
    List.length_replicate]
  have h6 : f.length + (6 - f.length) = 6 := by omega
  rw [h6]
  ring

theorem usdToBaseUnits_nodot (w : List Char)
    (hw : ∀ c ∈ w, c ∈ digitChars) :
    usdToBaseUnitsL w = natRepr (valD w * 10 ^ 6) := by
  have hwd : '.' ∉ w := fun h => digit_ne_dot '.' (hw _ h) rfl
  unfold usdToBaseUnitsL
  rw [splitDot_no_dot w hwd]
  show (if (w ++ List.replicate 6 '0').dropWhile (· == '0') = [] then ['0']
        else (w ++ List.replicate 6 '0').dropWhile (· == '0')) = _
  have hdig : ∀ c ∈ w ++ List.replicate 6 '0', c ∈ digitChars := by
    intro c hc
    rcases List.mem_append.mp hc with h | h
    · exact hw c h
    · rw [List.eq_of_mem_replicate h]
      simp [digitChars]
  rw [strip_eq_natRepr _ hdig]
  congr 1
  rw [valD_append, valD_replicate_zero, List.length_replicate]
  ring

/-! ### Shape of `pay` results -/

/-- Every run of `pay` either succeeds or produces a zeroed failure
record carrying some error message. -/
theorem pay_shape (cfg : PayBotConfig) (req : PaymentRequest) (env : SignEnv)
    (t : Transport) :
    (pay cfg req env t).1.success = true ∨
    ∃ m c d, (pay cfg req env t).1 = zeroFailure (some m) c d := by
  cases hb : buildPaymentPayload cfg env req.payTo (usdToBaseUnits req.amount)
      (req.network.getD defaultNetwork) with
  | error m => exact Or.inr ⟨m, none, none, by simp [pay, hb]⟩
  | ok p =>
    cases hv : t.verify with
    | netErr m => exact Or.inr ⟨m, none, none, by simp [pay, hb, hv]⟩
    | resp st body =>
      cases hst : respOk st with
      | false =>
        exact Or.inr ⟨(verifyErrBody body).error.getD ("HTTP " ++ toString st),
          (verifyErrBody body).code, (verifyErrBody body).details,
          by simp [pay, hb, hv, hst]⟩
      | true =>
        cases body with
        | error m => exact Or.inr ⟨m, none, none, by simp [pay, hb, hv, hst]⟩
        | ok vb =>
          cases htok : strFalsy vb.settlementToken with
          | true =>
            exact Or.inr ⟨"Verify response missing settlement token", none,
              none, by simp [pay, hb, hv, hst, htok]⟩
          | false =>
            cases hs : t.settle with
            | netErr m =>
              exact Or.inr ⟨m, none, none,
                by simp [pay, hb, hv, hst, htok, hs]⟩
            | resp st2 body2 =>
              cases hst2 : respOk st2 with
              | false =>
                exact Or.inr ⟨(settleErrBody body2).error.getD
                    ("Settlement HTTP " ++ toString st2),
                  (settleErrBody body2).code, (settleErrBody body2).details,
                  by simp [pay, hb, hv, hst, htok, hs, hst2]⟩
              | true =>
                cases body2 with
                | error m =>
                  exact Or.inr ⟨m, none, none,
                    by simp [pay, hb, hv, hst, htok, hs, hst2]⟩
                | ok sb =>
                  exact Or.inl (by simp [pay, hb, hv, hst, htok, hs, hst2])

/-! ### Claim theorems -/

/-- C1: For every `PaymentRequest` and every behavior of the facilitator
transport (network error, non-success verify, success verify without a
usable settlement token — absent or empty, the source's falsy test —
non-success settle, undecodable response), `PayBotClient.pay` returns a
`PaymentResult` and never raises (the embedding is total because every
throwing operation of the source is caught); every failure is reported
as `success:false` with an error message, and on a decodable
non-success verify or settle response the result carries the server's
machine error code and details. -/
theorem pay_error_contract (cfg : PayBotConfig) (req : PaymentRequest)
    (env : SignEnv) (t : Transport) :
    ((pay cfg req env t).1.success = false →
      ∃ m, (pay cfg req env t).1.error = some m)
    ∧ (∀ p st b,
        buildPaymentPayload cfg env req.payTo (usdToBaseUnits req.amount)
          (req.network.getD defaultNetwork) = .ok p →
        t.verify = .resp st (.ok b) → respOk st = false →
        (pay cfg req env t).1 =
          zeroFailure (some (b.error.getD ("HTTP " ++ toString st)))
            b.code b.details)
    ∧ (∀ p st vb,
        buildPaymentPayload cfg env req.payTo (usdToBaseUnits req.amount)
          (req.network.getD defaultNetwork) = .ok p →
        t.verify = .resp st (.ok vb) → respOk st = true →
        strFalsy vb.settlementToken = true →
        (pay cfg req env t).1 =
          zeroFailure (some "Verify response missing settlement token")
            none none)
    ∧ (∀ p st vb tok st2 sb,
        buildPaymentPayload cfg env req.payTo (usdToBaseUnits req.amount)
          (req.network.getD defaultNetwork) = .ok p →
        t.verify = .resp st (.ok vb) → respOk st = true →
        vb.settlementToken = some tok → tok ≠ "" →
        t.settle = .resp st2 (.ok sb) → respOk st2 = false →
        (pay cfg req env t).1 =
          zeroFailure
            (some (sb.error.getD ("Settlement HTTP " ++ toString st2)))
            sb.code sb.details) := by
  refine ⟨?_, ?_, ?_, ?_⟩
  · intro hfail
    rcases pay_shape cfg req env t with hs | ⟨m, c, d, he⟩
    · rw [hs] at hfail
      exact absurd hfail (by simp)
    · rw [he]
      exact ⟨m, rfl⟩
  · intro p st b hb hv hst
    simp [pay, hb, hv, hst, verifyErrBody]
  · intro p st vb hb hv hst htok
    simp [pay, hb, hv, hst, htok]
  · intro p st vb tok st2 sb hb hv hst htok htokne hs hst2
    have hf : strFalsy (some tok) = false := by
      simpa [strFalsy] using htokne
    simp [pay, hb, hv, hst, htok, hf, hs, hst2, settleErrBody]

/-- C1 witness: a concrete non-success verify response with a decodable
error body produces the claimed zeroed failure with the server's code
and details. -/
theorem pay_error_contract_witness :
    (pay ⟨"k", "http://localhost:3000", "bot", "op", none⟩
      ⟨"https://r", "0.05", "0xabc", none, none⟩
      ⟨0, "0xnonce", "0xaddr", fun _ _ => "0xsig"⟩
      ⟨.resp 403 (.ok ⟨some "Insufficient trust", some "TRUST_VIOLATION",
          some (.jobj []), none, none, none⟩),
        .netErr "unused"⟩).1 =
      zeroFailure (some "Insufficient trust") (some "TRUST_VIOLATION")
        (some (.jobj [])) :=
  (pay_error_contract _ _ _ _).2.1 (.mock "payer:bot") 403
    ⟨some "Insufficient trust", some "TRUST_VIOLATION", some (.jobj []),
      none, none, none⟩ rfl rfl rfl

/-- C4: if the verify request returns a non-success HTTP status, the
settle request is never issued: `pay` returns a failure outcome having
made exactly one facilitator request (the verify one). -/
theorem verify_failure_no_settle (cfg : PayBotConfig) (req : PaymentRequest)
    (env : SignEnv) (t : Transport) (p : PaymentPayload) (st : Nat)
    (body : Except String VerifyBody)
    (hb : buildPaymentPayload cfg env req.payTo (usdToBaseUnits req.amount)
      (req.network.getD defaultNetwork) = .ok p)
    (hv : t.verify = .resp st body) (hst : respOk st = false) :
    (pay cfg req env t).1.success = false ∧
    ∃ e, (pay cfg req env t).2 = [FacRequest.verifyReq e] := by
  refine ⟨?_, ?_⟩
  · simp [pay, hb, hv, hst, zeroFailure]
  · exact ⟨⟨cfg.botId, ⟨1, req.resource, true, p⟩,
      mkRequirements (req.network.getD defaultNetwork)
        (req.tokenContract.getD defaultTokenContract)
        (usdToBaseUnits req.amount) req.payTo⟩,
      by simp [pay, hb, hv, hst]⟩

/-- C4 witness: a concrete 500 verify response leads to a failure with a
single verify request and no settle request. -/
theorem verify_failure_no_settle_witness :
    (pay ⟨"k", "http://localhost:3000", "bot", "op", none⟩
      ⟨"https://r", "0.05", "0xabc", none, none⟩
      ⟨0, "0xnonce", "0xaddr", fun _ _ => "0xsig"⟩
      ⟨.resp 500 (.error "not json"), .netErr "unused"⟩).1.success = false ∧
    ∃ e, (pay ⟨"k", "http://localhost:3000", "bot", "op", none⟩
      ⟨"https://r", "0.05", "0xabc", none, none⟩
      ⟨0, "0xnonce", "0xaddr", fun _ _ => "0xsig"⟩
      ⟨.resp 500 (.error "not json"), .netErr "unused"⟩).2 =
        [FacRequest.verifyReq e] :=
  verify_failure_no_settle _ _ _ _ (.mock "payer:bot") 500 (.error "not json")
    rfl rfl rfl

/-- C5: every `PaymentResult` has the four amount fields present (they
are non-optional in the embedded result structure, as in the source
type), and on every failure they are zeroed: `"0"`, `"0"`, `"0"`, `0`. -/
theorem failure_amounts_zeroed (cfg : PayBotConfig) (req : PaymentRequest)
    (env : SignEnv) (t : Transport) :
    (pay cfg req env t).1.success = false →
      (pay cfg req env t).1.grossAmount = "0" ∧
      (pay cfg req env t).1.netAmount = "0" ∧
      (pay cfg req env t).1.commissionAmount = "0" ∧
      (pay cfg req env t).1.commissionRate = 0 := by
  intro hfail
  rcases pay_shape cfg req env t with hs | ⟨m, c, d, he⟩
  · rw [hs] at hfail
    exact absurd hfail (by simp)
  · rw [he]
    exact ⟨rfl, rfl, rfl, rfl⟩

/-- C5 witness: the zeroed amounts at a concrete failing run. -/
theorem failure_amounts_zeroed_witness :
    (pay ⟨"k", "http://localhost:3000", "bot", "op", none⟩
      ⟨"https://r", "0.05", "0xabc", none, none⟩
      ⟨0, "0xnonce", "0xaddr", fun _ _ => "0xsig"⟩
      ⟨.netErr "fetch failed", .netErr "unused"⟩).1.grossAmount = "0" ∧
    (pay ⟨"k", "http://localhost:3000", "bot", "op", none⟩
      ⟨"https://r", "0.05", "0xabc", none, none⟩
      ⟨0, "0xnonce", "0xaddr", fun _ _ => "0xsig"⟩
      ⟨.netErr "fetch failed", .netErr "unused"⟩).1.netAmount = "0" ∧
    (pay ⟨"k", "http://localhost:3000", "bot", "op", none⟩
      ⟨"https://r", "0.05", "0xabc", none, none⟩
      ⟨0, "0xnonce", "0xaddr", fun _ _ => "0xsig"⟩
      ⟨.netErr "fetch failed", .netErr "unused"⟩).1.commissionAmount = "0" ∧
    (pay ⟨"k", "http://localhost:3000", "bot", "op", none⟩
      ⟨"https://r", "0.05", "0xabc", none, none⟩
      ⟨0, "0xnonce", "0xaddr", fun _ _ => "0xsig"⟩
      ⟨.netErr "fetch failed", .netErr "unused"⟩).1.commissionRate = 0 :=
  failure_amounts_zeroed _ _ _ _ rfl

/-- C9: with a wallet signing key configured (present and non-empty,
since the source's `if (!walletPrivateKey)` guard treats the empty
string as unconfigured) and a requested chain identifier that has no
registered signing domain, the payment attempt fails with the explicit
unknown-signing-domain error before any network call: the facilitator
request trace is empty. -/
theorem unknown_domain_fails_early (cfg : PayBotConfig)
    (req : PaymentRequest) (env : SignEnv) (t : Transport)
    (k n : String) (hk : cfg.walletPrivateKey = some k) (hkne : k ≠ "")
    (hn : req.network = some n) (hdom : EIP712_DOMAINS n = none) :
    pay cfg req env t =
      (zeroFailure (some ("No EIP-712 domain for network: " ++ n)) none none,
        []) := by
  have hf : strFalsy cfg.walletPrivateKey = false := by
    rw [hk]
    simpa [strFalsy] using hkne
  have hb : buildPaymentPayload cfg env req.payTo (usdToBaseUnits req.amount)
      (req.network.getD defaultNetwork) =
      .error ("No EIP-712 domain for network: " ++ n) := by
    rw [hn]
    simp [buildPaymentPayload, hf, hdom, Option.getD]
  simp [pay, hb]

/-- C9 witness: a concrete non-empty key and unregistered chain
identifier yield the unknown-domain failure with zero facilitator
requests. -/
theorem unknown_domain_fails_early_witness :
    pay ⟨"k", "http://localhost:3000", "bot", "op", some "0xkey"⟩
      ⟨"https://r", "0.05", "0xabc", none, some "eip155:1"⟩
      ⟨0, "0xnonce", "0xaddr", fun _ _ => "0xsig"⟩
      ⟨.netErr "unused", .netErr "unused"⟩ =
      (zeroFailure (some "No EIP-712 domain for network: eip155:1") none none,
        []) :=
  unknown_domain_fails_early _ _ _ _ "0xkey" "eip155:1" rfl (by decide) rfl
    rfl

/-- C3 counterexample: the claim `validBefore - validAfter == 3600` is
false on the code.  At signing time 1000 the signed proof has
`validAfter = 0` and `validBefore = now + 3600 = 4600`, so the window
width is 4600 seconds, not 3600. -/
theorem validity_window_width_not_3600 :
    buildPaymentPayload ⟨"k", "http://localhost:3000", "bot", "op",
        some "0xkey"⟩
      ⟨1000, "0xnonce", "0xaddr", fun _ _ => "0xsig"⟩
      "0xpayee" "10000000" "eip155:84532" =
      .ok (.signed ⟨⟨"0xaddr", "0xpayee", 10000000, 0, 4600, "0xnonce"⟩,
        "0xsig"⟩)
    ∧ (4600 : Nat) - 0 ≠ 3600 :=
  ⟨rfl, by decide⟩

/-- C3 amended: for every signed authorization proof, `validAfter = 0`
and `validBefore = now + 3600`, i.e. the window end is exactly 3600
seconds after the signing time (not after the window start). -/
theorem validity_window_amended (cfg : PayBotConfig) (env : SignEnv)
    (payTo amt network : String) (a : SignedAuth)
    (h : buildPaymentPayload cfg env payTo amt network = .ok (.signed a)) :
    a.msg.validAfter = 0 ∧ a.msg.validBefore = env.nowSeconds + 3600 := by
  unfold buildPaymentPayload at h
  cases hf : strFalsy cfg.walletPrivateKey with
  | true =>
    rw [hf] at h
    simp at h
  | false =>
    rw [hf] at h
    cases hd : EIP712_DOMAINS network with
    | none =>
      rw [hd] at h
      simp at h
    | some d =>
      rw [hd] at h
      simp at h
      rw [← h]
      exact ⟨rfl, rfl⟩

/-- C3 amended witness: the amended invariant at the concrete signing
time 1000. -/
theorem validity_window_amended_witness :
    (⟨⟨"0xaddr", "0xpayee", 10000000, 0, 4600, "0xnonce"⟩,
        "0xsig"⟩ : SignedAuth).msg.validAfter = 0 ∧
    (⟨⟨"0xaddr", "0xpayee", 10000000, 0, 4600, "0xnonce"⟩,
        "0xsig"⟩ : SignedAuth).msg.validBefore =
      (⟨1000, "0xnonce", "0xaddr", fun _ _ => "0xsig"⟩ : SignEnv).nowSeconds
        + 3600 :=
  validity_window_amended ⟨"k", "http://localhost:3000", "bot", "op",
      some "0xkey"⟩
    ⟨1000, "0xnonce", "0xaddr", fun _ _ => "0xsig"⟩
    "0xpayee" "10000000" "eip155:84532" _ rfl

/-- C2: for every non-negative decimal amount string with at most 6
fractional digits (a digit-only integer part, optionally followed by a
radix point and at most 6 digits), `usdToBaseUnits` returns the
canonical decimal numeral of the amount scaled by `10^6` — leading
zeros stripped, `"0"` when the stripped result is empty (which is what
`natRepr` produces) — and in particular `"10.00" ↦ "10000000"`,
`"0.01" ↦ "10000"`, `"0.000001" ↦ "1"`, `"0" ↦ "0"`. -/
theorem usdToBaseUnits_correct :
    (∀ w f : List Char, (∀ c ∈ w, c ∈ digitChars) →
      (∀ c ∈ f, c ∈ digitChars) → f.length ≤ 6 →
      usdToBaseUnitsL (w ++ '.' :: f) =
        natRepr (valD w * 10 ^ 6 + valD f * 10 ^ (6 - f.length)))
    ∧ (∀ w : List Char, (∀ c ∈ w, c ∈ digitChars) →
      usdToBaseUnitsL w = natRepr (valD w * 10 ^ 6))
    ∧ usdToBaseUnits "10.00" = "10000000"
    ∧ usdToBaseUnits "0.01" = "10000"
    ∧ usdToBaseUnits "0.000001" = "1"
    ∧ usdToBaseUnits "0" = "0" := by
  refine ⟨usdToBaseUnits_dotted, usdToBaseUnits_nodot, ?_, ?_, ?_, ?_⟩ <;>
    decide

/-- C2 witness: the general statement instantiated at `"10.00"`,
written as integer part `['1','0']` and fractional part `['0','0']`. -/
theorem usdToBaseUnits_correct_witness :
    usdToBaseUnitsL (['1', '0'] ++ '.' :: ['0', '0']) =
      natRepr (valD ['1', '0'] * 10 ^ 6 +
        valD ['0', '0'] * 10 ^ (6 - (['0', '0'] : List Char).length)) :=
  usdToBaseUnits_correct.1 ['1', '0'] ['0', '0'] (by decide) (by decide)
    (by decide)

/-! ### Interceptor lemmas -/

/-- `Rat.floor` agrees with the `FloorRing` floor (they are the same
function by construction of the instance). -/
theorem rat_floor_eq_intFloor (q : Rat) : q.floor = ⌊q⌋ := rfl

/-- Evaluating `toFixed(6)` at amount zero. -/
theorem jsToFixed_six_at_zero : jsToFixed 6 0 = "0.000000" := by
  have h1 : ((0 : Rat) * (10 : Rat) ^ (6 : Nat) + 1 / 2).floor = 0 := by
    rw [rat_floor_eq_intFloor]
    norm_num
  unfold jsToFixed
  rw [if_neg (by norm_num : ¬ (0 : Rat) < 0)]
  unfold toFixedPos
  rw [h1]
  decide

/-- C7: for every 402 response whose extracted amount, divided by
1,000,000, strictly exceeds the configured auto-pay ceiling (default
`"1.00"`), the interceptor's fetch raises the explicit over-ceiling
error naming the amount and the ceiling, invokes the payment protocol
zero times and issues zero retried requests.  JavaScript numbers are
modelled as exact rationals. -/
theorem ceiling_exceeded_aborts (cfg : X402HandlerConfig)
    (env : HandlerEnv) (url : String) (init : Option ReqInit)
    (amt payTo : String) (q m : Rat)
    (h402 : env.firstResponse.status = 402)
    (hparse : parse402Response env.firstResponse.body
      env.firstResponse.headers = some (amt, payTo))
    (hq : jsNumber amt = some q)
    (hm : jsNumber (cfg.maxAutoPay.getD "1.00") = some m)
    (hgt : m < q / 1000000) :
    handlerFetch cfg env url init =
      (.error (x402LimitMsg (some (q / 1000000))
        (cfg.maxAutoPay.getD "1.00")), []) := by
  simp [handlerFetch, h402, hparse, hq, hm, jsGtOpt, hgt]

/-- C7 witness: a 402 body demanding 2000000 base units (2 USD) against
the default 1.00 USD ceiling aborts with the over-ceiling error and an
empty event trace. -/
theorem ceiling_exceeded_aborts_witness :
    handlerFetch ⟨none, none⟩
      ⟨⟨402, .ok (.jobj [("amount", .jstr "2000000"),
          ("payTo", .jstr "0xabc")]), []⟩,
        zeroFailure none none none, ⟨200, .ok .jnull, []⟩⟩
      "https://api.example.com/paid" none =
      (.error (x402LimitMsg (some ((2000000 : Rat) / 1000000)) "1.00"),
        []) := by
  have hq : jsNumber "2000000" = some 2000000 := by
    have h : jsNumber "2000000" =
        some ((valD ['2', '0', '0', '0', '0', '0', '0'] : Rat)) := rfl
    rw [h, show valD ['2', '0', '0', '0', '0', '0', '0'] = 2000000 from rfl]
    norm_num
  have hm : jsNumber "1.00" = some 1 := by
    have h : jsNumber "1.00" = some ((valD ['1'] : Rat) +
        (valD ['0', '0'] : Rat) / (10 : Rat) ^ (['0', '0'] : List Char).length)
      := rfl
    rw [h, show valD ['1'] = 1 from rfl, show valD ['0', '0'] = 0 from rfl,
      show (['0', '0'] : List Char).length = 2 from rfl]
    norm_num
  exact ceiling_exceeded_aborts ⟨none, none⟩ _ _ none "2000000" "0xabc"
    2000000 1 rfl rfl hq hm (by norm_num)

/-- C8: after a successful payment, the interceptor issues exactly one
retried request whose headers are the caller's original headers with the
payment-proof header set to the transaction reference (empty string when
none was returned) and the facilitator-identifier header set to
`"paybot"`, preserving the caller's other request options; the retried
response is returned as-is with no further challenge handling, even if
it is itself a 402. -/
theorem success_retries_once (cfg : X402HandlerConfig) (env : HandlerEnv)
    (url : String) (init : Option ReqInit) (amt payTo : String) (q m : Rat)
    (h402 : env.firstResponse.status = 402)
    (hparse : parse402Response env.firstResponse.body
      env.firstResponse.headers = some (amt, payTo))
    (hq : jsNumber amt = some q)
    (hm : jsNumber (cfg.maxAutoPay.getD "1.00") = some m)
    (hle : ¬ m < q / 1000000)
    (hsucc : env.payResult.success = true) :
    handlerFetch cfg env url init =
      (.ok env.retryResponse,
        [.payCall ⟨url, jsToFixedOpt 6 (some (q / 1000000)), payTo, none,
          cfg.network⟩,
         .retry url ⟨setHeader (setHeader
             ((init.map (fun i => i.headers)).getD [])
             "X-Payment-Proof" (env.payResult.txHash.getD ""))
             "X-Payment-Facilitator" "paybot",
           init.bind (fun i => i.method), init.bind (fun i => i.body)⟩]) := by
  simp [handlerFetch, h402, hparse, hq, hm, jsGtOpt, hle, hsucc]

/-- C8 witness: a concrete under-ceiling 402 challenge with a successful
payment carrying a transaction hash; the retried request carries both
headers on top of the caller's original header list, and the 402 retry
response is returned as-is. -/
theorem success_retries_once_witness :
    handlerFetch ⟨none, none⟩
      ⟨⟨402, .ok (.jobj [("amount", .jstr "500000"),
          ("payTo", .jstr "0xabc")]), []⟩,
        { success := true, txHash := some "0xtx", grossAmount := "500000",
          netAmount := "490000", commissionAmount := "10000",
          commissionRate := 0, network := some "eip155:84532", error := none,
          errorCode := none, errorDetails := none },
        ⟨402, .ok .jnull, []⟩⟩
      "https://api.example.com/paid"
      (some ⟨[("Accept", "application/json")], some "GET", none⟩) =
      (.ok ⟨402, .ok .jnull, []⟩,
        [.payCall ⟨"https://api.example.com/paid",
          jsToFixedOpt 6 (some ((500000 : Rat) / 1000000)), "0xabc", none,
          none⟩,
         .retry "https://api.example.com/paid"
           ⟨setHeader (setHeader [("Accept", "application/json")]
               "X-Payment-Proof" "0xtx") "X-Payment-Facilitator" "paybot",
             some "GET", none⟩]) := by
  have hq : jsNumber "500000" = some 500000 := by
    have h : jsNumber "500000" =
        some ((valD ['5', '0', '0', '0', '0', '0'] : Rat)) := rfl
    rw [h, show valD ['5', '0', '0', '0', '0', '0'] = 500000 from rfl]
    norm_num
  have hm : jsNumber "1.00" = some 1 := by
    have h : jsNumber "1.00" = some ((valD ['1'] : Rat) +
        (valD ['0', '0'] : Rat) / (10 : Rat) ^ (['0', '0'] : List Char).length)
      := rfl
    rw [h, show valD ['1'] = 1 from rfl, show valD ['0', '0'] = 0 from rfl,
      show (['0', '0'] : List Char).length = 2 from rfl]
    norm_num
  exact success_retries_once ⟨none, none⟩ _ _ _ "500000" "0xabc" 500000 1
    rfl rfl hq hm (by norm_num) rfl

/-- C10: for every 402 response whose JSON body has a
`paymentRequirements` key holding an object that lacks both the amount
and the payee field, extraction succeeds with amount defaulted to `"0"`
and payee to `""`, and (for any non-negative configured ceiling) the
interceptor proceeds to attempt a zero-amount payment — amount string
`"0.000000"` — to the empty payee instead of returning the original
response unmodified. -/
theorem empty_requirements_zero_payment (cfg : X402HandlerConfig)
    (env : HandlerEnv) (url : String) (init : Option ReqInit)
    (flds prFlds : List (String × JVal)) (m : Rat)
    (h402 : env.firstResponse.status = 402)
    (hbody : env.firstResponse.body = .ok (.jobj flds))
    (hpr : getField (.jobj flds) "paymentRequirements" =
      some (.jobj prFlds))
    (hamt : getField (.jobj prFlds) "amount" = none)
    (hpay : getField (.jobj prFlds) "payTo" = none)
    (hm : jsNumber (cfg.maxAutoPay.getD "1.00") = some m) (hm0 : 0 ≤ m) :
    parse402Response env.firstResponse.body env.firstResponse.headers =
      some ("0", "")
    ∧ ∃ evs, (handlerFetch cfg env url init).2 =
        HEvent.payCall ⟨url, "0.000000", "", none, cfg.network⟩ :: evs := by
  have hparse : parse402Response env.firstResponse.body
      env.firstResponse.headers = some ("0", "") := by
    rw [hbody]
    simp [parse402Response, hpr, hamt, hpay, truthyOpt, truthy, jsCoalesce,
      jsToString]
  refine ⟨hparse, ?_⟩
  have hj0 : jsNumber "0" = some 0 := by
    have h : jsNumber "0" = some ((valD ['0'] : Rat)) := rfl
    rw [h, show valD ['0'] = 0 from rfl]
    norm_num
  have hgt0 : jsGtOpt (some (0 : Rat)) (some m) = false := by
    simp [jsGtOpt]
    exact hm0
  have hamount0 : jsToFixedOpt 6 (some (0 : Rat)) = "0.000000" :=
    jsToFixed_six_at_zero
  cases hps : env.payResult.success with
  | true =>
    simp [handlerFetch, h402, hparse, hj0, hm, hgt0, hamount0, hps]
  | false =>
    simp [handlerFetch, h402, hparse, hj0, hm, hgt0, hamount0, hps]

/-- C10 witness: a concrete 402 with `paymentRequirements: {}` under the
default ceiling triggers a zero-amount payment attempt to the empty
payee. -/
theorem empty_requirements_zero_payment_witness :
    parse402Response (Except.ok (.jobj [("paymentRequirements", .jobj [])]))
      [] = some ("0", "")
    ∧ ∃ evs, (handlerFetch ⟨none, none⟩
        ⟨⟨402, .ok (.jobj [("paymentRequirements", .jobj [])]), []⟩,
          zeroFailure none none none, ⟨200, .ok .jnull, []⟩⟩
        "https://api.example.com/paid" none).2 =
        HEvent.payCall ⟨"https://api.example.com/paid", "0.000000", "",
          none, none⟩ :: evs := by
  have hm : jsNumber "1.00" = some 1 := by
    have h : jsNumber "1.00" = some ((valD ['1'] : Rat) +
        (valD ['0', '0'] : Rat) / (10 : Rat) ^ (['0', '0'] : List Char).length)
      := rfl
    rw [h, show valD ['1'] = 1 from rfl, show valD ['0', '0'] = 0 from rfl,
      show (['0', '0'] : List Char).length = 2 from rfl]
    norm_num
  exact empty_requirements_zero_payment ⟨none, none⟩
    ⟨⟨402, .ok (.jobj [("paymentRequirements", .jobj [])]), []⟩,
      zeroFailure none none none, ⟨200, .ok .jnull, []⟩⟩
    "https://api.example.com/paid" none
    [("paymentRequirements", .jobj [])] [] 1 rfl rfl rfl rfl rfl hm
    (by norm_num)

/-- C6 counterexample: the claim is false for an undecodable body.  A
402 response carrying both `X-Payment-Amount` and `X-Payment-Address`
headers but a body that is not valid JSON is NOT parsed from the
headers: `response.json()` rejects inside the `try`, the `catch`
returns null, and the interceptor returns the original response with
zero payment attempts. -/
theorem undecodable_body_headers_unused :
    parse402Response (Except.error "Unexpected end of JSON input")
      [("X-Payment-Amount", "50000"), ("X-Payment-Address", "0xabc")] = none
    ∧ handlerFetch ⟨none, none⟩
        ⟨⟨402, .error "Unexpected end of JSON input",
           [("X-Payment-Amount", "50000"), ("X-Payment-Address", "0xabc")]⟩,
          zeroFailure none none none, ⟨200, .ok .jnull, []⟩⟩
        "https://api.example.com/paid" none =
      (.ok ⟨402, .error "Unexpected end of JSON input",
         [("X-Payment-Amount", "50000"), ("X-Payment-Address", "0xabc")]⟩,
        []) :=
  ⟨rfl, rfl⟩

/-- C6 amended: the interceptor extracts payment terms from the
`X-Payment-Amount` / `X-Payment-Address` headers (both present and
non-empty) whenever the body is decodable JSON other than `null` and
matches neither JSON body format; in that case — when the extracted
amount is also within the auto-pay ceiling — it proceeds to attempt
payment rather than returning the original response.  (When the body is
undecodable the original response is returned instead; see the
counterexample.) -/
theorem headers_parsed_when_body_unmatched (bv : JVal)
    (hnull : bv ≠ .jnull)
    (h1 : truthyOpt (getField bv "paymentRequirements") = false)
    (h2 : (truthyOpt (getField bv "amount") &&
      truthyOpt (getField bv "payTo")) = false)
    (headers : List (String × String)) (ha hp : String)
    (hga : hGet headers "X-Payment-Amount" = some ha)
    (hgp : hGet headers "X-Payment-Address" = some hp)
    (hane : ha ≠ "") (hpne : hp ≠ "") :
    parse402Response (.ok bv) headers = some (ha, hp)
    ∧ ∀ (cfg : X402HandlerConfig) (env : HandlerEnv) (url : String)
        (init : Option ReqInit) (q m : Rat),
        env.firstResponse = ⟨402, .ok bv, headers⟩ →
        jsNumber ha = some q →
        jsNumber (cfg.maxAutoPay.getD "1.00") = some m →
        ¬ m < q / 1000000 →
        ∃ evs, (handlerFetch cfg env url init).2 =
          HEvent.payCall ⟨url, jsToFixedOpt 6 (some (q / 1000000)), hp, none,
            cfg.network⟩ :: evs := by
  have hparse : parse402Response (.ok bv) headers = some (ha, hp) := by
    cases bv with
    | jnull => exact absurd rfl hnull
    | jbool b => simp [parse402Response, h1, h2, hga, hgp, hane, hpne]
    | jnum n => simp [parse402Response, h1, h2, hga, hgp, hane, hpne]
    | jstr s => simp [parse402Response, h1, h2, hga, hgp, hane, hpne]
    | jobj fields => simp [parse402Response, h1, h2, hga, hgp, hane, hpne]
  refine ⟨hparse, ?_⟩
  intro cfg env url init q m henv hq hm hle
  cases hps : env.payResult.success with
  | true => simp [handlerFetch, henv, hparse, hq, hm, jsGtOpt, hle, hps]
  | false => simp [handlerFetch, henv, hparse, hq, hm, jsGtOpt, hle, hps]

/-- C6 amended witness: a decodable body matching neither format, with
both headers present, under the ceiling: the first interceptor event is
the payment attempt with the header-derived terms. -/
theorem headers_parsed_when_body_unmatched_witness :
    parse402Response (.ok (.jobj [("detail", .jstr "payment required")]))
      [("X-Payment-Amount", "500000"), ("X-Payment-Address", "0xabc")] =
      some ("500000", "0xabc")
    ∧ ∃ evs, (handlerFetch ⟨none, none⟩
        ⟨⟨402, .ok (.jobj [("detail", .jstr "payment required")]),
           [("X-Payment-Amount", "500000"), ("X-Payment-Address", "0xabc")]⟩,
          zeroFailure none none none, ⟨200, .ok .jnull, []⟩⟩
        "https://api.example.com/paid" none).2 =
        HEvent.payCall ⟨"https://api.example.com/paid",
          jsToFixedOpt 6 (some ((500000 : Rat) / 1000000)), "0xabc", none,
          none⟩ :: evs := by
  have hq : jsNumber "500000" = some 500000 := by
    have h : jsNumber "500000" =
        some ((valD ['5', '0', '0', '0', '0', '0'] : Rat)) := rfl
    rw [h, show valD ['5', '0', '0', '0', '0', '0'] = 500000 from rfl]
    norm_num
  have hm : jsNumber "1.00" = some 1 := by
    have h : jsNumber "1.00" = some ((valD ['1'] : Rat) +
        (valD ['0', '0'] : Rat) / (10 : Rat) ^ (['0', '0'] : List Char).length)
      := rfl
    rw [h, show valD ['1'] = 1 from rfl, show valD ['0', '0'] = 0 from rfl,
      show (['0', '0'] : List Char).length = 2 from rfl]
    norm_num
  have hmain := headers_parsed_when_body_unmatched
    (.jobj [("detail", .jstr "payment required")]) (by simp)
    rfl rfl
    [("X-Payment-Amount", "500000"), ("X-Payment-Address", "0xabc")]
    "500000" "0xabc" rfl rfl (by simp) (by simp)
  exact ⟨hmain.1, hmain.2 ⟨none, none⟩ _ "https://api.example.com/paid" none
    500000 1 rfl hq hm (by norm_num)⟩

end PayBot
